import Mathlib

/-!
Shallow embedding of the cashflow projection engine of
`src/app/components/CashflowChart.tsx` (CashflowChat repository).

JavaScript numbers are modelled as rationals (`ℚ`).  Calendar dates are
modelled two ways, mirroring the two ways the source consumes them: the
projection loop matches events by (month, year) of their date, modelled as an
absolute month index (`ℤ`); the goal-feasibility analyzer works on millisecond
timestamps, modelled as `ℚ`.  Record maps (category → amount) are modelled as
lists of their values, since the source only ever sums them.
-/

namespace CashflowChat

/-- Risk tolerance setting (`financialData.riskTolerance`). -/
inductive Risk where
  | low
  | medium
  | high
deriving DecidableEq, Repr

/-- `RETURN_RATES` constant: `(base, variance)` annual percentages. -/
def RETURN_RATES : Risk → ℚ × ℚ
  | .low => (3, 1)
  | .medium => (6, 5/2)
  | .high => (9, 4)

/-- `DebtAccount` interface (identity and display fields dropped). -/
structure DebtAccount where
  totalBalance : ℚ
  interestRate : ℚ
  minimumPayment : ℚ
deriving DecidableEq, Repr

/-- `LumpSum` interface: `month` is the absolute month index of its `date`;
`isIncome` is `type === 'income'`. -/
structure LumpSum where
  amount : ℚ
  month : ℤ
  isIncome : Bool
deriving DecidableEq, Repr

/-- `FinancialGoal` interface: `targetMonth` is the absolute month index of
`targetDate` (used by the projection loop); `targetTime` is its millisecond
timestamp (used by the feasibility analyzer). -/
structure FinancialGoal where
  targetAmount : ℚ
  targetMonth : ℤ
  targetTime : ℚ
deriving DecidableEq, Repr

/-- `FinancialData` state: the engine's input profile. -/
structure FinancialData where
  income : List ℚ
  expenses : List ℚ
  savings : List ℚ
  investments : List ℚ
  debts : List DebtAccount
  lumpSums : List LumpSum
  goals : List FinancialGoal
  riskTolerance : Risk
deriving DecidableEq, Repr

/-- `calculateDebtTotals`: `(totalDebtBalance, totalMinimumPayments)`. -/
def calculateDebtTotals (p : FinancialData) : ℚ × ℚ :=
  ((p.debts.map (·.totalBalance)).sum, (p.debts.map (·.minimumPayment)).sum)

/-- Result record of `calculateTotals`. -/
structure Totals where
  totalIncome : ℚ
  totalExpenses : ℚ
  totalExpensesExcludingDebt : ℚ
  totalSavings : ℚ
  totalInvestments : ℚ
  totalDebtBalance : ℚ
  totalMinimumPayments : ℚ
  surplus : ℚ
deriving DecidableEq, Repr

/-- `calculateTotals`: top-level aggregates; `totalExpenses` includes debt
minimum payments. -/
def calculateTotals (p : FinancialData) : Totals :=
  let totalIncome := p.income.sum
  let totalExpenses := p.expenses.sum
  let totalSavings := p.savings.sum
  let totalInvestments := p.investments.sum
  let dt := calculateDebtTotals p
  let totalExpensesWithDebt := totalExpenses + dt.2
  { totalIncome := totalIncome
    totalExpenses := totalExpensesWithDebt
    totalExpensesExcludingDebt := totalExpenses
    totalSavings := totalSavings
    totalInvestments := totalInvestments
    totalDebtBalance := dt.1
    totalMinimumPayments := dt.2
    surplus := totalIncome - totalExpensesWithDebt - totalSavings - totalInvestments }

/-- `calculateDebtProjection`'s loop body, iterated `months` times; state is
`(balance, totalPaid)`.  The source `break`s when `balance <= 0`, which is
modelled by leaving the state unchanged from then on. -/
def debtProjLoop (monthlyRate monthlyPayment : ℚ) : ℕ → ℚ × ℚ → ℚ × ℚ
  | 0, s => s
  | k + 1, s =>
    if s.1 ≤ 0 then s
    else
      let interestCharge := s.1 * monthlyRate
      let principalPayment := min (monthlyPayment - interestCharge) s.1
      debtProjLoop monthlyRate monthlyPayment k
        (max 0 (s.1 - principalPayment), s.2 + monthlyPayment)

/-- `calculateDebtProjection`: returns `(balance, totalPaid, monthlyPayment)`. -/
def calculateDebtProjection (debt : DebtAccount) (months : ℕ) : ℚ × ℚ × ℚ :=
  let r := debtProjLoop (debt.interestRate / 100 / 12) debt.minimumPayment months
    (debt.totalBalance, 0)
  (r.1, r.2, debt.minimumPayment)

/-- A debt tracked inside `generateChartData` (`{...debt, remainingBalance}`). -/
structure ActiveDebt where
  interestRate : ℚ
  minimumPayment : ℚ
  remainingBalance : ℚ
deriving DecidableEq, Repr

/-- One debt's per-month update inside `generateChartData`'s future-month
branch. -/
def updateDebt (d : ActiveDebt) : ActiveDebt :=
  if d.remainingBalance ≤ 0 then { d with remainingBalance := 0 }
  else
    let monthlyInterest := d.remainingBalance * (d.interestRate / 100 / 12)
    let principalPayment := max 0 (d.minimumPayment - monthlyInterest)
    { d with remainingBalance := max 0 (d.remainingBalance - principalPayment) }

/-- A debt's summand in `currentMonthDebtPayments`: only active debts
(`remainingBalance > 0`) contribute their `minimumPayment`. -/
def payContribution (d : ActiveDebt) : ℚ :=
  if 0 < d.remainingBalance then d.minimumPayment else 0

/-- Mutable state carried across iterations of `generateChartData`'s loop. -/
structure EngineState where
  cash : ℚ
  inv : ℚ
  invLow : ℚ
  invHigh : ℚ
  debts : List ActiveDebt
deriving DecidableEq, Repr

/-- The liquidation block of `generateChartData` (lines 1466-1485): returns
`(cash, inv, invLow, invHigh)` after covering negative cash from investments. -/
def liquidateStep (cash inv invLow invHigh : ℚ) : ℚ × ℚ × ℚ × ℚ :=
  if cash < 0 then
    let cashShortfall := -cash
    if cashShortfall ≤ inv then
      (0, inv - cashShortfall, max 0 (invLow - cashShortfall),
        max 0 (invHigh - cashShortfall))
    else
      (cash + inv, 0, 0, 0)
  else (cash, inv, invLow, invHigh)

/-- One row of `generateChartData`'s output (`MonthlyData`); `monthIndex` is
the absolute month stood for by the `period` label. -/
structure MonthlyData where
  monthIndex : ℤ
  income : ℚ
  expenses : ℚ
  surplus : ℚ
  netWorth : ℚ
  investments : ℚ
  investmentsLow : ℚ
  investmentsHigh : ℚ
  availableCash : ℚ
  liabilities : ℚ
  lumpSums : ℚ
  totalDebtBalance : ℚ
  totalDebtPayments : ℚ
deriving DecidableEq, Repr

/-- The all-zero row pushed when the profile has no data. -/
def zeroData (m : ℤ) : MonthlyData :=
  ⟨m, 0, 0, 0, 0, 0, 0, 0, 0, 0, 0, 0, 0⟩

/-- `hasAnyData` check at the top of `generateChartData`'s loop body. -/
def hasAnyData (p : FinancialData) : Prop :=
  0 < (calculateTotals p).totalIncome ∨ 0 < (calculateTotals p).totalExpenses ∨
    0 < (calculateTotals p).totalSavings ∨ 0 < (calculateTotals p).totalInvestments

instance (p : FinancialData) : Decidable (hasAnyData p) := by
  unfold hasAnyData
  infer_instance

/-- One iteration of `generateChartData`'s loop when the profile has data:
month `cm + i` where `cm` is the current month and `i` the loop counter.
Returns the updated state and the pushed `MonthlyData` row. -/
def periodStep (p : FinancialData) (cm i : ℤ) (s : EngineState) :
    EngineState × MonthlyData :=
  let t := calculateTotals p
  let debts1 := if 0 < i then s.debts.map updateDebt else s.debts
  let currentMonthDebtBalance := (debts1.map (·.remainingBalance)).sum
  let currentMonthDebtPayments := (debts1.map payContribution).sum
  let riskData := RETURN_RATES p.riskTolerance
  let baseReturnMonthly := riskData.1 / 100 / 12
  let varianceMonthly := riskData.2 / 100 / 12
  let inv1 := (s.inv + t.totalInvestments) * (1 + baseReturnMonthly)
  let invLow1 := (s.invLow + t.totalInvestments) *
    (1 + max (baseReturnMonthly - varianceMonthly) (-(2/25)))
  let invHigh1 := (s.invHigh + t.totalInvestments) *
    (1 + baseReturnMonthly + varianceMonthly)
  let m := cm + i
  let monthLumpSumsIncome :=
    ((p.lumpSums.filter (fun l => l.month == m && l.isIncome)).map (·.amount)).sum
  let monthLumpSumsExpense :=
    ((p.lumpSums.filter (fun l => l.month == m && !l.isIncome)).map (·.amount)).sum
  let monthGoalExpenses :=
    ((p.goals.filter (fun g => g.targetMonth == m)).map (·.targetAmount)).sum
  let netLumpSums := monthLumpSumsIncome - monthLumpSumsExpense - monthGoalExpenses
  let actualMonthlyIncome := t.totalIncome + monthLumpSumsIncome
  let baseExpenses := p.expenses.sum
  let actualMonthlyExpenses :=
    baseExpenses + currentMonthDebtPayments + monthLumpSumsExpense + monthGoalExpenses
  let monthlySurplus :=
    actualMonthlyIncome - actualMonthlyExpenses - t.totalSavings - t.totalInvestments
  let cash1 := s.cash + t.totalSavings + monthlySurplus
  let cash2 := if 0 < monthGoalExpenses then cash1 - monthGoalExpenses else cash1
  let L := liquidateStep cash2 inv1 invLow1 invHigh1
  let projectedNetWorth := L.1 + L.2.1 - currentMonthDebtBalance
  (⟨L.1, L.2.1, L.2.2.1, L.2.2.2, debts1⟩,
    ⟨m, actualMonthlyIncome, actualMonthlyExpenses, monthlySurplus,
      projectedNetWorth, L.2.1, L.2.2.1, L.2.2.2, max 0 L.1,
      currentMonthDebtBalance, netLumpSums, currentMonthDebtBalance,
      currentMonthDebtPayments⟩)

/-- One iteration of the loop including the `hasAnyData` guard: without data
the state is untouched and an all-zero row is pushed. -/
def periodEmit (p : FinancialData) (cm i : ℤ) (s : EngineState) :
    EngineState × MonthlyData :=
  if hasAnyData p then periodStep p cm i s else (s, zeroData (cm + i))

/-- State entering the loop: zero cash and investment balances; debts seeded
with `remainingBalance := totalBalance`. -/
def initialState (p : FinancialData) : EngineState :=
  ⟨0, 0, 0, 0, p.debts.map fun d => ⟨d.interestRate, d.minimumPayment, d.totalBalance⟩⟩

/-- Engine state after the first `n` iterations of the loop (iteration `n`
runs with loop counter `i = n - 12`, since the loop starts at `i = -12`). -/
def stateAfter (p : FinancialData) (cm : ℤ) : ℕ → EngineState
  | 0 => initialState p
  | n + 1 => (periodEmit p cm ((n : ℤ) - 12) (stateAfter p cm n)).1

/-- Row pushed by iteration `n` of the loop. -/
def snapshotAt (p : FinancialData) (cm : ℤ) (n : ℕ) : MonthlyData :=
  (periodEmit p cm ((n : ℤ) - 12) (stateAfter p cm n)).2

/-- `generateChartData`: the loop runs `i` from `-12` to `monthsForward`
inclusive, i.e. `monthsForward + 13` iterations. -/
def generateChartData (p : FinancialData) (cm : ℤ) (monthsForward : ℕ) :
    List MonthlyData :=
  (List.range (monthsForward + 13)).map (snapshotAt p cm)

/-- `feasibilityStatus` values of `getGoalsData`. -/
inductive FeasibilityStatus where
  | overdue
  | achievable
  | shortfall
deriving DecidableEq, Repr

/-- One element of `getGoalsData`'s output (goal identity fields dropped). -/
structure GoalResult where
  monthsUntilTarget : ℤ
  projectedCashAtTarget : ℚ
  projectedCashAfterGoal : ℚ
  cashShortfall : ℚ
  isAffordable : Bool
  isOverdue : Bool
  feasibilityStatus : FeasibilityStatus
  targetAmount : ℚ
  targetTime : ℚ
deriving DecidableEq, Repr

/-- `1000 * 60 * 60 * 24 * 30` milliseconds, the month length used by
`getGoalsData`'s `Math.ceil` division. -/
def msPerMonth : ℚ := 2592000000

/-- The per-goal body of `getGoalsData`'s `map`. -/
def analyzeGoal (now currentAvailableCash monthlyCashAccumulation : ℚ)
    (g : FinancialGoal) : GoalResult :=
  let monthsUntilTarget : ℤ := ⌈(g.targetTime - now) / msPerMonth⌉
  let projectedCashAtTarget :=
    if 0 < monthsUntilTarget then
      currentAvailableCash + monthlyCashAccumulation * (monthsUntilTarget : ℚ)
    else currentAvailableCash
  { monthsUntilTarget := max 0 monthsUntilTarget
    projectedCashAtTarget := projectedCashAtTarget
    projectedCashAfterGoal := projectedCashAtTarget - g.targetAmount
    cashShortfall := max 0 (g.targetAmount - projectedCashAtTarget)
    isAffordable := decide (g.targetAmount ≤ projectedCashAtTarget)
    isOverdue := decide (g.targetTime < now)
    feasibilityStatus :=
      if g.targetTime < now then .overdue
      else if g.targetAmount ≤ projectedCashAtTarget then .achievable
      else .shortfall
    targetAmount := g.targetAmount
    targetTime := g.targetTime }

/-- Insertion into a list kept sorted by `targetTime` (ascending). -/
def insertByDate (g : GoalResult) : List GoalResult → List GoalResult
  | [] => [g]
  | h :: t => if g.targetTime ≤ h.targetTime then g :: h :: t else h :: insertByDate g t

/-- The `.sort` by ascending `targetDate` at the end of `getGoalsData`,
modelled as insertion sort. -/
def sortByDate : List GoalResult → List GoalResult
  | [] => []
  | h :: t => insertByDate h (sortByDate t)

/-- `getGoalsData`: feasibility analysis of every goal, sorted by target
date.  `now` is the current millisecond timestamp; `cm`/`monthsForward`
parameterize the `generateChartData` call it reads its cash figure from. -/
def getGoalsData (p : FinancialData) (cm : ℤ) (monthsForward : ℕ) (now : ℚ) :
    List GoalResult :=
  let totals := calculateTotals p
  let chartData := generateChartData p cm monthsForward
  let currentAvailableCash := ((chartData.getLast?).map (·.availableCash)).getD 0
  let monthlyCashAccumulation := totals.totalSavings + max 0 totals.surplus
  sortByDate (p.goals.map (analyzeGoal now currentAvailableCash monthlyCashAccumulation))

/-! Concrete inputs used by the witnesses and counterexamples below. -/

/-- Profile for C1: income 5000, expenses 3000, one goal of 1000 due in
month 1. -/
def c1P : FinancialData := ⟨[5000], [3000], [], [], [], [], [⟨1000, 1, 0⟩], .medium⟩

/-- Profile for C2's counterexample: expenses 400 and investment contribution
100, so after one growth step (expected 201/2, pessimistic 2407/24,
optimistic 2417/24) the cash shortfall 500 exceeds the expected balance. -/
def c2P : FinancialData := ⟨[], [400], [], [100], [], [], [], .medium⟩

/-- Profile for C4's counterexample: expenses 500 and nothing else, so cash
goes negative with no investments to liquidate. -/
def c4P : FinancialData := ⟨[], [500], [], [], [], [], [], .medium⟩

/-- Profile for C4's witness: income 5000, expenses 3000. -/
def c4Pw : FinancialData := ⟨[5000], [3000], [], [], [], [], [], .medium⟩

/-- The first emitted row for `c4Pw` (month `-12`, surplus 2000). -/
def c4d : MonthlyData := ⟨-12, 5000, 3000, 2000, 2000, 0, 0, 0, 2000, 0, 0, 0, 0⟩

/-- Profile for C5's witness: income 5000, expenses 3000. -/
def c5Pw : FinancialData := ⟨[5000], [3000], [], [], [], [], [], .medium⟩

/-- The first emitted row for `c5Pw`. -/
def c5d : MonthlyData := ⟨-12, 5000, 3000, 2000, 2000, 0, 0, 0, 2000, 0, 0, 0, 0⟩

/-- Profile for C6's witness: a single debt of 1000 at APR 12 with minimum
payment 50. -/
def c6Pw : FinancialData := ⟨[], [], [], [], [⟨1000, 12, 50⟩], [], [], .medium⟩

/-- Profile for C7: income 5000, expenses 3000, nothing else. -/
def c7P : FinancialData := ⟨[5000], [3000], [], [], [], [], [], .medium⟩

/-- Malformed profile for C8: one debt with negative balance `-100` and APR
150 (outside `[0, 100]`). -/
def c8P : FinancialData := ⟨[], [], [], [], [⟨-100, 150, 10⟩], [], [], .medium⟩

/-- Profile for C10's counterexample: all recurring totals zero but one debt
with positive balance and positive minimum payment. -/
def c10P : FinancialData := ⟨[], [], [], [], [⟨1000, 12, 50⟩], [], [], .medium⟩

/-- Profile for C10's witness: a debt with positive balance 1000 but zero
minimum payment, plus a lump sum and a goal, all recurring totals zero. -/
def c10Pw : FinancialData :=
  ⟨[], [], [], [], [⟨1000, 12, 0⟩], [⟨700, -12, true⟩], [⟨800, -12, 0⟩], .medium⟩

/-! Helper lemmas. -/

theorem generateChartData_getElem? (p : FinancialData) (cm : ℤ) (mf n : ℕ)
    (h : n < mf + 13) :
    (generateChartData p cm mf)[n]? = some (snapshotAt p cm n) := by
  simp [generateChartData, List.getElem?_range, h]

theorem generateChartData_inv (p : FinancialData) (cm : ℤ) (mf n : ℕ)
    (d : MonthlyData) (hd : (generateChartData p cm mf)[n]? = some d) :
    d = snapshotAt p cm n := by
  rcases Nat.lt_or_ge n (mf + 13) with hn | hn
  · rw [generateChartData_getElem? p cm mf n hn] at hd
    exact (Option.some.inj hd).symm
  · rw [List.getElem?_eq_none (by simpa [generateChartData] using hn)] at hd
    exact Option.noConfusion hd

theorem stateAfter_no_data (p : FinancialData) (cm : ℤ) (h : ¬ hasAnyData p)
    (n : ℕ) : stateAfter p cm n = initialState p := by
  induction n with
  | zero => rfl
  | succ k ih => rw [stateAfter, periodEmit, if_neg h, ih]

theorem rates_nonneg (r : Risk) : 0 ≤ (RETURN_RATES r).1 ∧ 0 ≤ (RETURN_RATES r).2 := by
  cases r <;> norm_num [RETURN_RATES]

theorem growth_order (c bl be bh rb rv : ℚ) (hc : 0 ≤ c) (hrb : 0 ≤ rb) (hrv : 0 ≤ rv)
    (h1 : 0 ≤ bl) (h2 : bl ≤ be) (h3 : be ≤ bh) :
    0 ≤ (bl + c) * (1 + max (rb - rv) (-(2/25))) ∧
      (bl + c) * (1 + max (rb - rv) (-(2/25))) ≤ (be + c) * (1 + rb) ∧
      (be + c) * (1 + rb) ≤ (bh + c) * (1 + rb + rv) := by
  have hl1 : (-(2/25) : ℚ) ≤ max (rb - rv) (-(2/25)) := le_max_right _ _
  have hl2 : max (rb - rv) (-(2/25)) ≤ rb := max_le (by linarith) (by linarith)
  have hfl : (0 : ℚ) ≤ 1 + max (rb - rv) (-(2/25)) := by linarith
  refine ⟨mul_nonneg (by linarith) hfl, ?_, ?_⟩
  · calc (bl + c) * (1 + max (rb - rv) (-(2/25)))
        ≤ (be + c) * (1 + max (rb - rv) (-(2/25))) :=
          mul_le_mul_of_nonneg_right (by linarith) hfl
      _ ≤ (be + c) * (1 + rb) :=
          mul_le_mul_of_nonneg_left (by linarith) (by linarith)
  · calc (be + c) * (1 + rb)
        ≤ (bh + c) * (1 + rb) :=
          mul_le_mul_of_nonneg_right (by linarith) (by linarith)
      _ ≤ (bh + c) * (1 + rb + rv) :=
          mul_le_mul_of_nonneg_left (by linarith) (by linarith)

theorem liquidateStep_order (c e l h : ℚ) (h1 : 0 ≤ l) (h2 : l ≤ e) (h3 : e ≤ h) :
    0 ≤ (liquidateStep c e l h).2.2.1 ∧
      (liquidateStep c e l h).2.2.1 ≤ (liquidateStep c e l h).2.1 ∧
      (liquidateStep c e l h).2.1 ≤ (liquidateStep c e l h).2.2.2 := by
  by_cases hc : c < 0
  · by_cases hs : -c ≤ e
    · have hL : liquidateStep c e l h = (0, e - -c, max 0 (l - -c), max 0 (h - -c)) := by
        rw [liquidateStep, if_pos hc, if_pos hs]
      rw [hL]
      show 0 ≤ max 0 (l - -c) ∧ max 0 (l - -c) ≤ e - -c ∧ e - -c ≤ max 0 (h - -c)
      exact ⟨le_max_left _ _, max_le (by linarith) (by linarith),
        le_max_of_le_right (by linarith)⟩
    · have hL : liquidateStep c e l h = (c + e, 0, 0, 0) := by
        rw [liquidateStep, if_pos hc, if_neg hs]
      rw [hL]
      exact ⟨le_refl 0, le_refl 0, le_refl 0⟩
  · have hL : liquidateStep c e l h = (c, e, l, h) := by
      rw [liquidateStep, if_neg hc]
    rw [hL]
    exact ⟨h1, h2, h3⟩

theorem periodStep_invOrder (p : FinancialData) (cm i : ℤ) (s : EngineState)
    (hc : 0 ≤ (calculateTotals p).totalInvestments)
    (h1 : 0 ≤ s.invLow) (h2 : s.invLow ≤ s.inv) (h3 : s.inv ≤ s.invHigh) :
    0 ≤ (periodStep p cm i s).1.invLow ∧
      (periodStep p cm i s).1.invLow ≤ (periodStep p cm i s).1.inv ∧
      (periodStep p cm i s).1.inv ≤ (periodStep p cm i s).1.invHigh := by
  have hr := rates_nonneg p.riskTolerance
  have hrb : 0 ≤ (RETURN_RATES p.riskTolerance).1 / 100 / 12 :=
    div_nonneg (div_nonneg hr.1 (by norm_num)) (by norm_num)
  have hrv : 0 ≤ (RETURN_RATES p.riskTolerance).2 / 100 / 12 :=
    div_nonneg (div_nonneg hr.2 (by norm_num)) (by norm_num)
  have hg := growth_order (calculateTotals p).totalInvestments s.invLow s.inv s.invHigh
    ((RETURN_RATES p.riskTolerance).1 / 100 / 12)
    ((RETURN_RATES p.riskTolerance).2 / 100 / 12) hc hrb hrv h1 h2 h3
  exact liquidateStep_order _ _ _ _ hg.1 hg.2.1 hg.2.2

theorem stateAfter_invOrder (p : FinancialData) (cm : ℤ)
    (hc : 0 ≤ (calculateTotals p).totalInvestments) (n : ℕ) :
    0 ≤ (stateAfter p cm n).invLow ∧
      (stateAfter p cm n).invLow ≤ (stateAfter p cm n).inv ∧
      (stateAfter p cm n).inv ≤ (stateAfter p cm n).invHigh := by
  induction n with
  | zero => exact ⟨le_refl 0, le_refl 0, le_refl 0⟩
  | succ k ih =>
    rw [stateAfter]
    unfold periodEmit
    by_cases hno : hasAnyData p
    · rw [if_pos hno]
      exact periodStep_invOrder p cm ((k : ℤ) - 12) _ hc ih.1 ih.2.1 ih.2.2
    · rw [if_neg hno]
      exact ih

theorem updateDebt_nonneg (d : ActiveDebt) : 0 ≤ (updateDebt d).remainingBalance := by
  rw [updateDebt]
  by_cases hb : d.remainingBalance ≤ 0
  · rw [if_pos hb]
  · rw [if_neg hb]
    exact le_max_left _ _

theorem updateDebt_le (d : ActiveDebt) (h : 0 ≤ d.remainingBalance) :
    (updateDebt d).remainingBalance ≤ d.remainingBalance := by
  rw [updateDebt]
  by_cases hb : d.remainingBalance ≤ 0
  · rw [if_pos hb]
    exact h
  · rw [if_neg hb]
    show max 0 (d.remainingBalance - max 0 (d.minimumPayment -
      d.remainingBalance * (d.interestRate / 100 / 12))) ≤ d.remainingBalance
    have h0 : (0 : ℚ) ≤ max 0 (d.minimumPayment -
        d.remainingBalance * (d.interestRate / 100 / 12)) := le_max_left _ _
    exact max_le h (by linarith)

theorem updateDebt_zero (d : ActiveDebt) (h : d.remainingBalance = 0) :
    (updateDebt d).remainingBalance = 0 := by
  rw [updateDebt, if_pos (le_of_eq h)]

theorem stateAfter_debts_succ (p : FinancialData) (cm : ℤ) (n : ℕ) :
    (stateAfter p cm (n + 1)).debts =
      if hasAnyData p ∧ 0 < (n : ℤ) - 12 then
        (stateAfter p cm n).debts.map updateDebt
      else (stateAfter p cm n).debts := by
  rw [stateAfter]
  unfold periodEmit
  by_cases hno : hasAnyData p
  · rw [if_pos hno]
    show (if 0 < (n : ℤ) - 12 then (stateAfter p cm n).debts.map updateDebt
      else (stateAfter p cm n).debts) = _
    by_cases hi : 0 < (n : ℤ) - 12
    · rw [if_pos hi, if_pos ⟨hno, hi⟩]
    · rw [if_neg hi, if_neg (fun hand => hi hand.2)]
  · rw [if_neg hno, if_neg (fun hand => hno hand.1)]

theorem stateAfter_debts_nonneg (p : FinancialData) (cm : ℤ)
    (hval : ∀ a ∈ p.debts, 0 ≤ a.totalBalance) (n : ℕ) :
    ∀ d ∈ (stateAfter p cm n).debts, 0 ≤ d.remainingBalance := by
  induction n with
  | zero =>
    intro d hd
    obtain ⟨a, ha, rfl⟩ := List.mem_map.mp hd
    exact hval a ha
  | succ k ih =>
    intro d hd
    rw [stateAfter_debts_succ] at hd
    by_cases hcon : hasAnyData p ∧ 0 < (k : ℤ) - 12
    · rw [if_pos hcon] at hd
      obtain ⟨a, ha, rfl⟩ := List.mem_map.mp hd
      exact updateDebt_nonneg a
    · rw [if_neg hcon] at hd
      exact ih d hd

theorem snapshotAt_payments (p : FinancialData) (cm : ℤ) (n : ℕ)
    (hno : hasAnyData p) :
    (snapshotAt p cm n).totalDebtPayments =
      ((if 0 < (n : ℤ) - 12 then (stateAfter p cm n).debts.map updateDebt
        else (stateAfter p cm n).debts).map payContribution).sum := by
  unfold snapshotAt periodEmit
  rw [if_pos hno]
  rfl

theorem mem_insertByDate (g a : GoalResult) (l : List GoalResult) :
    a ∈ insertByDate g l ↔ a = g ∨ a ∈ l := by
  induction l with
  | nil => simp [insertByDate]
  | cons x xs ih =>
    rw [insertByDate]
    by_cases hle : g.targetTime ≤ x.targetTime
    · rw [if_pos hle]
      simp [List.mem_cons]
    · rw [if_neg hle]
      simp only [List.mem_cons, ih]
      tauto

theorem sorted_insertByDate (g : GoalResult) (l : List GoalResult)
    (h : l.Sorted (fun a b => a.targetTime ≤ b.targetTime)) :
    (insertByDate g l).Sorted (fun a b => a.targetTime ≤ b.targetTime) := by
  induction l with
  | nil => simp [insertByDate]
  | cons x xs ih =>
    rw [insertByDate]
    rw [List.sorted_cons] at h
    by_cases hle : g.targetTime ≤ x.targetTime
    · rw [if_pos hle, List.sorted_cons]
      constructor
      · intro b hb
        rcases List.mem_cons.mp hb with rfl | hb
        · exact hle
        · exact le_trans hle (h.1 b hb)
      · rw [List.sorted_cons]
        exact h
    · rw [if_neg hle, List.sorted_cons]
      constructor
      · intro b hb
        rcases (mem_insertByDate g b xs).mp hb with rfl | hb
        · exact le_of_not_le hle
        · exact h.1 b hb
      · exact ih h.2

theorem sorted_sortByDate (l : List GoalResult) :
    (sortByDate l).Sorted (fun a b => a.targetTime ≤ b.targetTime) := by
  induction l with
  | nil => simp [sortByDate]
  | cons x xs ih => exact sorted_insertByDate x (sortByDate xs) ih

/-! Claim theorems. -/

set_option maxRecDepth 8000 in
/-- C1: the spec says each period's cash change is
`savingsContribution + netCashDelta`, with a goal's outflow subtracted
exactly once.  The code subtracts a matched goal's outflow twice: once inside
`actualMonthlyExpenses` (hence in `monthlySurplus`) and once again in the
explicit `cumulativeAvailableCash -= monthGoalExpenses` step.  For profile
`c1P` (income 5000, expenses 3000, goal 1000 due in month 1), the period
matching the goal has `netCashDelta = 5000 - 3000 - 1000 = 1000` and zero
savings, so the claim predicts cash 26000 → 27000; the code leaves cash at
26000. -/
theorem c1_goal_outflow_double_subtracted :
    ((generateChartData c1P 0 1)[12]?.map (·.availableCash)) = some 26000 ∧
    ((generateChartData c1P 0 1)[13]?.map (·.availableCash)) = some 26000 ∧
    (5000 + 0 - 3000 - 0 - 1000 - 0 - 0 - (0 : ℚ)) = 1000 := by
  refine ⟨?_, ?_, by norm_num⟩ <;>
  · rw [generateChartData_getElem? _ _ _ _ (by norm_num)]
    norm_num [snapshotAt, stateAfter, periodEmit, periodStep, hasAnyData,
      calculateTotals, calculateDebtTotals, initialState, liquidateStep,
      zeroData, RETURN_RATES, c1P]

set_option maxRecDepth 8000 in
set_option maxHeartbeats 2000000 in
/-- C7: the claim says a 12-forward-period monthly projection of income 5000 /
expenses 3000 ends with `cashBalance = 24000`.  It ends with 50000: the loop
also runs 12 historical periods and the current month (25 periods in all),
each accumulating the 2000 surplus. -/
theorem c7_counterexample :
    ((generateChartData c7P 0 12)[24]?.map (·.availableCash)) = some 50000 ∧
    ((50000 : ℚ) ≠ 24000) := by
  refine ⟨?_, by norm_num⟩
  rw [generateChartData_getElem? _ _ _ _ (by norm_num)]
  norm_num [snapshotAt, stateAfter, periodEmit, periodStep, hasAnyData,
    calculateTotals, calculateDebtTotals, initialState, liquidateStep,
    zeroData, RETURN_RATES, c7P]

set_option maxRecDepth 8000 in
set_option maxHeartbeats 2000000 in
/-- C7 amended: for income 5000, expenses 3000, no debts / investments /
events and 12 forward periods, the final emitted period has
`cashBalance = 50000` and `netWorth = 50000`, because the loop simulates 25
periods (12 historical, the current month, and 12 forward) each adding the
2000 surplus; the increase over the 12 forward periods alone is
`50000 - 26000 = 24000`. -/
theorem c7_example1_amended :
    ((generateChartData c7P 0 12)[24]?.map (·.availableCash)) = some 50000 ∧
    ((generateChartData c7P 0 12)[24]?.map (·.netWorth)) = some 50000 ∧
    ((generateChartData c7P 0 12)[12]?.map (·.availableCash)) = some 26000 := by
  refine ⟨?_, ?_, ?_⟩ <;>
  · rw [generateChartData_getElem? _ _ _ _ (by norm_num)]
    norm_num [snapshotAt, stateAfter, periodEmit, periodStep, hasAnyData,
      calculateTotals, calculateDebtTotals, initialState, liquidateStep,
      zeroData, RETURN_RATES, c7P]

set_option maxRecDepth 8000 in
/-- C8: the claim says malformed input (negative debt balance, out-of-range
APR) is rejected before the loop with a validation error and no projection.
The engine has no validation at all: for `c8P` (debt balance `-100`, APR 150)
it returns a complete 13-row projection whose rows carry the negative balance
through as `totalDebtBalance = -100`. -/
theorem c8_counterexample :
    (generateChartData c8P 0 0).length = 13 ∧
    ((generateChartData c8P 0 0)[0]?.map (·.totalDebtBalance)) = some ((-100 : ℚ)) := by
  refine ⟨by simp [generateChartData], ?_⟩
  rw [generateChartData_getElem? _ _ _ _ (by norm_num)]
  norm_num [snapshotAt, stateAfter, periodEmit, periodStep, hasAnyData,
    calculateTotals, calculateDebtTotals, initialState, liquidateStep,
    zeroData, RETURN_RATES, payContribution, c8P]

/-- C8 amended: the engine performs no input validation; for every profile,
malformed or not, it returns a complete projection with one row per period
(`monthsForward + 13` rows) and never fails. -/
theorem c8_no_validation_amended (p : FinancialData) (cm : ℤ) (mf : ℕ) :
    (generateChartData p cm mf).length = mf + 13 := by
  simp [generateChartData]

set_option maxRecDepth 8000 in
/-- C10: the claim says zero recurring income / expenses / savings /
investment totals make every emitted row all-zero.  The `hasAnyData` guard
also counts debt minimum payments (via `totalExpenses`), so profile `c10P`
(all recurring totals zero, one debt of balance 1000 with minimum payment 50)
is simulated normally: its first row reports `totalDebtBalance = 1000` and
`expenses = 50`, not zero. -/
theorem c10_counterexample :
    ((generateChartData c10P 0 0)[0]?.map (·.totalDebtBalance)) = some 1000 ∧
    ((generateChartData c10P 0 0)[0]?.map (·.expenses)) = some 50 ∧
    ((1000 : ℚ) ≠ 0) := by
  refine ⟨?_, ?_, by norm_num⟩ <;>
  · rw [generateChartData_getElem? _ _ _ _ (by norm_num)]
    norm_num [snapshotAt, stateAfter, periodEmit, periodStep, hasAnyData,
      calculateTotals, calculateDebtTotals, initialState, liquidateStep,
      zeroData, RETURN_RATES, payContribution, c10P]

set_option maxRecDepth 8000 in
/-- C2: the claim says the liquidation step always subtracts
`liquidated = min(expectedInvestmentBalance, shortfall)` from the pessimistic
and optimistic balances, clamping at 0.  In the insufficient branch the code
zeroes them outright instead.  For profile `c2P` the first period reaches
cash `-500` with grown balances expected `201/2`, pessimistic `2407/24`,
optimistic `2417/24`; the code emits optimistic balance 0, while the claim's
formula `max 0 (2417/24 - min (201/2) 500)` gives `5/24`. -/
theorem c2_counterexample :
    ((generateChartData c2P 0 0)[0]?.map (·.investmentsHigh)) = some 0 ∧
    liquidateStep (-500) (201/2) (2407/24) (2417/24) = (-799/2, 0, 0, 0) ∧
    max (0 : ℚ) (2417/24 - min (201/2) 500) = 5/24 ∧ ((5/24 : ℚ) ≠ 0) := by
  refine ⟨?_, by norm_num [liquidateStep], by norm_num, by norm_num⟩
  rw [generateChartData_getElem? _ _ _ _ (by norm_num)]
  norm_num [snapshotAt, stateAfter, periodEmit, periodStep, hasAnyData,
    calculateTotals, calculateDebtTotals, initialState, liquidateStep,
    zeroData, RETURN_RATES, c2P]

/-- C2 amended: when cash is negative the engine liquidates
`liquidated = min(expectedInvestmentBalance, shortfall)` from the expected
balance and sets `cashBalance = min(0, cashBalance + liquidated)` (so cash
stays negative only when the expected balance is exhausted); the pessimistic
and optimistic balances are reduced by `liquidated` and clamped at 0 when the
expected balance covers the shortfall, but are set to 0 outright when it does
not. -/
theorem c2_liquidation_amended (cash inv invLow invHigh : ℚ) (h : cash < 0) :
    liquidateStep cash inv invLow invHigh =
      (min 0 (cash + min inv (-cash)), inv - min inv (-cash),
        if -cash ≤ inv then max 0 (invLow + cash) else 0,
        if -cash ≤ inv then max 0 (invHigh + cash) else 0) := by
  rcases le_or_lt (-cash) inv with hle | hlt
  · have hL : liquidateStep cash inv invLow invHigh =
        (0, inv - -cash, max 0 (invLow - -cash), max 0 (invHigh - -cash)) := by
      rw [liquidateStep, if_pos h, if_pos hle]
    rw [hL, if_pos hle, if_pos hle, min_eq_right hle]
    have h0 : cash + -cash = 0 := by ring
    rw [h0, min_self]
    simp only [sub_neg_eq_add]
  · have hL : liquidateStep cash inv invLow invHigh = (cash + inv, 0, 0, 0) := by
      rw [liquidateStep, if_pos h, if_neg (not_le.mpr hlt)]
    rw [hL, if_neg (not_le.mpr hlt), if_neg (not_le.mpr hlt), min_eq_left hlt.le,
      min_eq_right (by linarith : cash + inv ≤ 0), sub_self]

/-- Witness for C2's amended theorem, at the claim's own example: cash `-500`
with expected balance 2000 (pessimistic 1800, optimistic 2200) ends with cash
0 and every balance reduced by 500. -/
theorem c2_liquidation_amended_witness :
    ((-500 : ℚ) < 0) ∧
    liquidateStep (-500) 2000 1800 2200 = (0, 1500, 1300, 1700) := by
  refine ⟨by norm_num, ?_⟩
  rw [c2_liquidation_amended (-500) 2000 1800 2200 (by norm_num)]
  norm_num

/-- C3: the claim says the non-amortizing clamp (`principalPaid = max(0, …)`,
balance 2500 at APR 22 with payment 40 stays 2500) holds in the standalone
helper `calculateDebtProjection` as well.  The helper has no `max 0` clamp:
its principal is `min(monthlyPayment - interestCharge, balance)`, so the same
debt grows to `2500 + 275/6 - 40 = 15035/6 ≈ 2505.83` after one month. -/
theorem c3_counterexample :
    (calculateDebtProjection ⟨2500, 22, 40⟩ 1).1 = 15035 / 6 ∧
    ((15035 / 6 : ℚ) ≠ 2500) := by
  norm_num [calculateDebtProjection, debtProjLoop, min_def, max_def]

/-- C3 amended: in the projection loop (`updateDebt`), for a debt with
positive balance, the new balance is
`max 0 (balance - min (max 0 (payment - interest)) balance)` and a payment
that does not cover interest leaves the balance unchanged; the standalone
helper `calculateDebtProjection`, however, omits the `max 0` clamp on
principal, so there a payment below interest grows the balance by the
uncovered interest. -/
theorem c3_amortization_amended (d : ActiveDebt) (hb : 0 < d.remainingBalance) :
    ((updateDebt d).remainingBalance =
      max 0 (d.remainingBalance -
        min (max 0 (d.minimumPayment -
          d.remainingBalance * (d.interestRate / 100 / 12))) d.remainingBalance)) ∧
    (d.minimumPayment ≤ d.remainingBalance * (d.interestRate / 100 / 12) →
      (updateDebt d).remainingBalance = d.remainingBalance) ∧
    (∀ b rate pay : ℚ, 0 < b → pay ≤ b * (rate / 100 / 12) →
      (calculateDebtProjection ⟨b, rate, pay⟩ 1).1 = b + (b * (rate / 100 / 12) - pay)) := by
  have hIf : updateDebt d = ⟨d.interestRate, d.minimumPayment,
      max 0 (d.remainingBalance - max 0 (d.minimumPayment -
        d.remainingBalance * (d.interestRate / 100 / 12)))⟩ := by
    rw [updateDebt, if_neg (not_le.mpr hb)]
  refine ⟨?_, ?_, ?_⟩
  · rw [hIf]
    rcases le_total (max 0 (d.minimumPayment -
        d.remainingBalance * (d.interestRate / 100 / 12))) d.remainingBalance with hP | hP
    · rw [min_eq_left hP]
    · rw [min_eq_right hP]
      have h0 : (0 : ℚ) ≤ max 0 (d.minimumPayment -
          d.remainingBalance * (d.interestRate / 100 / 12)) := le_max_left _ _
      show max 0 (d.remainingBalance - max 0 (d.minimumPayment -
          d.remainingBalance * (d.interestRate / 100 / 12))) = max 0 (d.remainingBalance - d.remainingBalance)
      rw [sub_self, max_self, max_eq_left (by linarith)]
  · intro hpay
    rw [hIf]
    show max 0 (d.remainingBalance - max 0 (d.minimumPayment -
        d.remainingBalance * (d.interestRate / 100 / 12))) = d.remainingBalance
    have hmax : max 0 (d.minimumPayment -
        d.remainingBalance * (d.interestRate / 100 / 12)) = 0 := max_eq_left (by linarith)
    rw [hmax, sub_zero, max_eq_right hb.le]
  · intro b rate pay h0 hpay
    have hstep : debtProjLoop (rate / 100 / 12) pay 1 (b, 0) =
        (max 0 (b - min (pay - b * (rate / 100 / 12)) b), 0 + pay) := by
      rw [debtProjLoop, if_neg (not_le.mpr h0)]
      rfl
    have hproj : (calculateDebtProjection ⟨b, rate, pay⟩ 1).1 =
        (debtProjLoop (rate / 100 / 12) pay 1 (b, 0)).1 := rfl
    rw [hproj, hstep]
    show max 0 (b - min (pay - b * (rate / 100 / 12)) b) = b + (b * (rate / 100 / 12) - pay)
    rw [min_eq_left (by linarith), max_eq_right (by linarith)]
    ring

/-- Witness for C3's amended theorem at balance 2500, APR 22, payment 40. -/
theorem c3_amortization_amended_witness :
    ((0 : ℚ) < 2500) ∧
    (((updateDebt ⟨22, 40, 2500⟩).remainingBalance =
      max 0 (2500 - min (max 0 (40 - 2500 * (22 / 100 / 12))) 2500)) ∧
    ((40 : ℚ) ≤ 2500 * (22 / 100 / 12) →
      (updateDebt ⟨22, 40, 2500⟩).remainingBalance = 2500) ∧
    (∀ b rate pay : ℚ, 0 < b → pay ≤ b * (rate / 100 / 12) →
      (calculateDebtProjection ⟨b, rate, pay⟩ 1).1 = b + (b * (rate / 100 / 12) - pay))) :=
  ⟨by norm_num, c3_amortization_amended ⟨22, 40, 2500⟩ (by norm_num)⟩

set_option maxRecDepth 8000 in
/-- C4: the claim says every emitted row satisfies
`netWorth = max(0, cashBalance) + investmentBalance - totalDebtBalance`.
The code computes `netWorth` from the internal signed cash balance, not the
clamped display value: for `c4P` (expenses 500, nothing else) the first row
has `netWorth = -500` while the claim's formula over the emitted fields gives
`max 0 (-500) + 0 - 0 = 0`. -/
theorem c4_counterexample :
    ((generateChartData c4P 0 0)[0]?.map (·.netWorth)) = some (-500 : ℚ) ∧
    ((generateChartData c4P 0 0)[0]?.map (·.availableCash)) = some 0 ∧
    ((generateChartData c4P 0 0)[0]?.map (·.investments)) = some 0 ∧
    ((generateChartData c4P 0 0)[0]?.map (·.totalDebtBalance)) = some 0 ∧
    ((-500 : ℚ) ≠ max 0 (-500) + 0 - 0) := by
  refine ⟨?_, ?_, ?_, ?_, by norm_num⟩ <;>
  · rw [generateChartData_getElem? _ _ _ _ (by norm_num)]
    norm_num [snapshotAt, stateAfter, periodEmit, periodStep, hasAnyData,
      calculateTotals, calculateDebtTotals, initialState, liquidateStep,
      zeroData, RETURN_RATES, c4P]

/-- C4 amended: every emitted row satisfies
`netWorth = cashBalance + investmentBalance(expected) - totalDebtBalance`
where `cashBalance` is the engine's internal signed cash balance after this
period (the unclamped value, of which `availableCash` is the `max 0` display
form). -/
theorem c4_netWorth_amended (p : FinancialData) (cm : ℤ) (mf n : ℕ)
    (d : MonthlyData) (hd : (generateChartData p cm mf)[n]? = some d) :
    d.netWorth = (stateAfter p cm (n + 1)).cash + d.investments - d.totalDebtBalance := by
  have hds := generateChartData_inv p cm mf n d hd
  subst hds
  show (periodEmit p cm ((n : ℤ) - 12) (stateAfter p cm n)).2.netWorth =
    (periodEmit p cm ((n : ℤ) - 12) (stateAfter p cm n)).1.cash +
      (periodEmit p cm ((n : ℤ) - 12) (stateAfter p cm n)).2.investments -
      (periodEmit p cm ((n : ℤ) - 12) (stateAfter p cm n)).2.totalDebtBalance
  unfold periodEmit
  by_cases hno : hasAnyData p
  · rw [if_pos hno]
    rfl
  · rw [if_neg hno]
    have hz := stateAfter_no_data p cm hno n
    show (zeroData (cm + ((n : ℤ) - 12))).netWorth =
      (stateAfter p cm n).cash + (zeroData (cm + ((n : ℤ) - 12))).investments -
        (zeroData (cm + ((n : ℤ) - 12))).totalDebtBalance
    rw [hz]
    show (0 : ℚ) = 0 + 0 - 0
    norm_num

set_option maxRecDepth 8000 in
/-- Witness for C4's amended theorem: profile `c4Pw` (income 5000, expenses
3000), first emitted row. -/
theorem c4_netWorth_amended_witness :
    (generateChartData c4Pw 0 0)[0]? = some c4d ∧
    c4d.netWorth = (stateAfter c4Pw 0 1).cash + c4d.investments - c4d.totalDebtBalance := by
  have hd : (generateChartData c4Pw 0 0)[0]? = some c4d := by
    rw [generateChartData_getElem? _ _ _ _ (by norm_num)]
    norm_num [snapshotAt, stateAfter, periodEmit, periodStep, hasAnyData,
      calculateTotals, calculateDebtTotals, initialState, liquidateStep,
      zeroData, RETURN_RATES, c4Pw, c4d]
  exact ⟨hd, c4_netWorth_amended c4Pw 0 0 0 c4d hd⟩

/-- C5: at every emitted period, given a valid profile (non-negative
investment contribution amounts — all three scenario tracks always share the
same contribution `totals.totalInvestments` in this engine), the three
scenario balances are non-negative and ordered
pessimistic ≤ expected ≤ optimistic; the ordering survives both the growth
step and the liquidation rule, of which the emitted fields are the result. -/
theorem c5_scenario_ordering (p : FinancialData) (cm : ℤ) (mf n : ℕ)
    (d : MonthlyData) (hc : ∀ x ∈ p.investments, (0 : ℚ) ≤ x)
    (hd : (generateChartData p cm mf)[n]? = some d) :
    0 ≤ d.investmentsLow ∧ d.investmentsLow ≤ d.investments ∧
      d.investments ≤ d.investmentsHigh ∧ 0 ≤ d.investments ∧
      0 ≤ d.investmentsHigh := by
  have hci : 0 ≤ (calculateTotals p).totalInvestments := List.sum_nonneg hc
  have hds := generateChartData_inv p cm mf n d hd
  subst hds
  unfold snapshotAt periodEmit
  by_cases hno : hasAnyData p
  · rw [if_pos hno]
    have hprev := stateAfter_invOrder p cm hci n
    have hst := periodStep_invOrder p cm ((n : ℤ) - 12) (stateAfter p cm n) hci
      hprev.1 hprev.2.1 hprev.2.2
    exact ⟨hst.1, hst.2.1, hst.2.2, le_trans hst.1 hst.2.1,
      le_trans (le_trans hst.1 hst.2.1) hst.2.2⟩
  · rw [if_neg hno]
    norm_num [zeroData]

set_option maxRecDepth 8000 in
/-- Witness for C5: profile `c5Pw` (income 5000, expenses 3000, no
investments), first emitted row. -/
theorem c5_scenario_ordering_witness :
    (∀ x ∈ c5Pw.investments, (0 : ℚ) ≤ x) ∧
    (generateChartData c5Pw 0 0)[0]? = some c5d ∧
    (0 ≤ c5d.investmentsLow ∧ c5d.investmentsLow ≤ c5d.investments ∧
      c5d.investments ≤ c5d.investmentsHigh ∧ 0 ≤ c5d.investments ∧
      0 ≤ c5d.investmentsHigh) := by
  have hc : ∀ x ∈ c5Pw.investments, (0 : ℚ) ≤ x := by simp [c5Pw]
  have hd : (generateChartData c5Pw 0 0)[0]? = some c5d := by
    rw [generateChartData_getElem? _ _ _ _ (by norm_num)]
    norm_num [snapshotAt, stateAfter, periodEmit, periodStep, hasAnyData,
      calculateTotals, calculateDebtTotals, initialState, liquidateStep,
      zeroData, RETURN_RATES, c5Pw, c5d]
  exact ⟨hc, hd, c5_scenario_ordering c5Pw 0 0 0 c5d hc hd⟩

/-- C6: across future periods (loop iterations `n ≥ 13`, i.e. loop counter
`i ≥ 1`), for a valid profile (non-negative initial balances), each debt's
`remainingBalance` is non-increasing; once it is 0 it stays 0 and contributes
exactly 0 to `debtPayments` at every later period; and each period's
`totalDebtPayments` is exactly the sum of `payContribution` (the
`minimumPayment` of accounts with positive balance, 0 otherwise) over that
period's account states. -/
theorem c6_debt_monotone (p : FinancialData) (cm : ℤ) (n j : ℕ) (d : ActiveDebt)
    (hval : ∀ a ∈ p.debts, 0 ≤ a.totalBalance) (hn : 13 ≤ n)
    (hd : (stateAfter p cm n).debts[j]? = some d) :
    (∃ d2, (stateAfter p cm (n + 1)).debts[j]? = some d2 ∧
      d2.remainingBalance ≤ d.remainingBalance) ∧
    (d.remainingBalance = 0 → ∀ m, n ≤ m →
      ∃ d3, (stateAfter p cm m).debts[j]? = some d3 ∧
        d3.remainingBalance = 0 ∧ payContribution d3 = 0) ∧
    ((snapshotAt p cm n).totalDebtPayments =
      if hasAnyData p then
        ((stateAfter p cm (n + 1)).debts.map payContribution).sum
      else 0) := by
  have hd_nonneg : 0 ≤ d.remainingBalance :=
    stateAfter_debts_nonneg p cm hval n d (List.getElem?_mem hd)
  have hi : 0 < (n : ℤ) - 12 := by omega
  refine ⟨?_, ?_, ?_⟩
  · rw [stateAfter_debts_succ]
    by_cases hcon : hasAnyData p ∧ 0 < (n : ℤ) - 12
    · rw [if_pos hcon]
      refine ⟨updateDebt d, ?_, updateDebt_le d hd_nonneg⟩
      rw [List.getElem?_map, hd]
      rfl
    · rw [if_neg hcon]
      exact ⟨d, hd, le_refl _⟩
  · intro hz m hm
    induction m, hm using Nat.le_induction with
    | base => exact ⟨d, hd, hz, by simp [payContribution, hz]⟩
    | succ m hm ih =>
      obtain ⟨d3, hd3, hz3, hp3⟩ := ih
      rw [stateAfter_debts_succ]
      by_cases hcon : hasAnyData p ∧ 0 < (m : ℤ) - 12
      · rw [if_pos hcon]
        refine ⟨updateDebt d3, ?_, updateDebt_zero d3 hz3, ?_⟩
        · rw [List.getElem?_map, hd3]
          rfl
        · simp [payContribution, updateDebt_zero d3 hz3]
      · rw [if_neg hcon]
        exact ⟨d3, hd3, hz3, hp3⟩
  · by_cases hno : hasAnyData p
    · rw [if_pos hno, stateAfter_debts_succ, if_pos ⟨hno, hi⟩,
        snapshotAt_payments p cm n hno, if_pos hi]
    · rw [if_neg hno]
      unfold snapshotAt periodEmit
      rw [if_neg hno]
      rfl

set_option maxRecDepth 8000 in
/-- Witness for C6: profile `c6Pw` (one debt: balance 1000, APR 12, payment
50) at the first future period (`n = 13`). -/
theorem c6_debt_monotone_witness :
    (∀ a ∈ c6Pw.debts, (0 : ℚ) ≤ a.totalBalance) ∧ (13 ≤ 13) ∧
    (stateAfter c6Pw 0 13).debts[0]? = some ⟨12, 50, 1000⟩ ∧
    ((∃ d2, (stateAfter c6Pw 0 (13 + 1)).debts[0]? = some d2 ∧
        d2.remainingBalance ≤ (⟨12, 50, 1000⟩ : ActiveDebt).remainingBalance) ∧
      ((⟨12, 50, 1000⟩ : ActiveDebt).remainingBalance = 0 → ∀ m, 13 ≤ m →
        ∃ d3, (stateAfter c6Pw 0 m).debts[0]? = some d3 ∧
          d3.remainingBalance = 0 ∧ payContribution d3 = 0) ∧
      ((snapshotAt c6Pw 0 13).totalDebtPayments =
        if hasAnyData c6Pw then
          ((stateAfter c6Pw 0 (13 + 1)).debts.map payContribution).sum
        else 0)) := by
  have hval : ∀ a ∈ c6Pw.debts, (0 : ℚ) ≤ a.totalBalance := by
    norm_num [c6Pw]
  have hd : (stateAfter c6Pw 0 13).debts[0]? = some ⟨12, 50, 1000⟩ := by
    norm_num [stateAfter, periodEmit, periodStep, hasAnyData, calculateTotals,
      calculateDebtTotals, initialState, liquidateStep, RETURN_RATES,
      payContribution, c6Pw]
  exact ⟨hval, le_refl 13, hd,
    c6_debt_monotone c6Pw 0 13 0 ⟨12, 50, 1000⟩ hval (le_refl 13) hd⟩

/-- C9: the feasibility analyzer computes, for every goal,
`monthsUntilTarget = max 0 ⌈(targetDate - now) / 30days⌉`,
`projectedCashAtTarget = currentCash + monthlyCashAccumulation * monthsUntilTarget`,
`cashShortfall = max 0 (targetAmount - projectedCashAtTarget)`, and status
overdue / achievable / shortfall exactly as claimed; `getGoalsData` returns
the goals sorted by target date ascending; and the claim's example (goal
15000, 10 months out, accumulation 1200, current cash 1000) yields projected
cash 13000, shortfall 2000, status `shortfall`. -/
theorem c9_goal_feasibility :
    (∀ now curCash acc : ℚ, ∀ g : FinancialGoal,
      (analyzeGoal now curCash acc g).monthsUntilTarget =
        max 0 ⌈(g.targetTime - now) / msPerMonth⌉ ∧
      (analyzeGoal now curCash acc g).projectedCashAtTarget =
        curCash + acc * ((max 0 ⌈(g.targetTime - now) / msPerMonth⌉ : ℤ) : ℚ) ∧
      (analyzeGoal now curCash acc g).cashShortfall =
        max 0 (g.targetAmount - (analyzeGoal now curCash acc g).projectedCashAtTarget) ∧
      (analyzeGoal now curCash acc g).feasibilityStatus =
        (if g.targetTime < now then FeasibilityStatus.overdue
         else if g.targetAmount ≤ (analyzeGoal now curCash acc g).projectedCashAtTarget
           then FeasibilityStatus.achievable
         else FeasibilityStatus.shortfall)) ∧
    (∀ p : FinancialData, ∀ cm : ℤ, ∀ mf : ℕ, ∀ now : ℚ,
      (getGoalsData p cm mf now).Sorted (fun a b => a.targetTime ≤ b.targetTime)) ∧
    ((analyzeGoal 0 1000 1200 ⟨15000, 0, 10 * msPerMonth⟩).projectedCashAtTarget = 13000 ∧
      (analyzeGoal 0 1000 1200 ⟨15000, 0, 10 * msPerMonth⟩).cashShortfall = 2000 ∧
      (analyzeGoal 0 1000 1200 ⟨15000, 0, 10 * msPerMonth⟩).feasibilityStatus =
        FeasibilityStatus.shortfall) := by
  have hceil : ⌈((10 * msPerMonth : ℚ) - 0) / msPerMonth⌉ = (10 : ℤ) := by
    rw [show ((10 * msPerMonth : ℚ) - 0) / msPerMonth = ((10 : ℤ) : ℚ) by
      norm_num [msPerMonth]]
    exact Int.ceil_intCast 10
  refine ⟨?_, ?_, ?_⟩
  · intro now curCash acc g
    refine ⟨rfl, ?_, rfl, rfl⟩
    show (if 0 < ⌈(g.targetTime - now) / msPerMonth⌉ then
        curCash + acc * ((⌈(g.targetTime - now) / msPerMonth⌉ : ℤ) : ℚ)
      else curCash) =
      curCash + acc * ((max 0 ⌈(g.targetTime - now) / msPerMonth⌉ : ℤ) : ℚ)
    by_cases hm : 0 < ⌈(g.targetTime - now) / msPerMonth⌉
    · rw [if_pos hm, max_eq_right hm.le]
    · rw [if_neg hm, max_eq_left (not_lt.mp hm)]
      norm_num
  · intro p cm mf now
    exact sorted_sortByDate _
  · simp only [analyzeGoal, hceil]
    norm_num [msPerMonth]

set_option maxRecDepth 8000 in
/-- C10 amended: when the recurring income, expense, savings and investment
totals are all zero AND the debts' total minimum payments are zero (the
`hasAnyData` guard counts minimum payments inside `totalExpenses`), every
emitted row is all-zero in every numeric field — debt accounts with positive
balances, lump sums and goals then have no effect, and `totalDebtBalance` is
reported as 0 even when accounts with positive balances exist. -/
theorem c10_zero_profile_amended (p : FinancialData) (cm : ℤ) (mf n : ℕ)
    (d : MonthlyData) (h1 : p.income.sum = 0) (h2 : p.expenses.sum = 0)
    (h3 : p.savings.sum = 0) (h4 : p.investments.sum = 0)
    (h5 : (p.debts.map (·.minimumPayment)).sum = 0)
    (hd : (generateChartData p cm mf)[n]? = some d) :
    d.income = 0 ∧ d.expenses = 0 ∧ d.surplus = 0 ∧ d.netWorth = 0 ∧
    d.investments = 0 ∧ d.investmentsLow = 0 ∧ d.investmentsHigh = 0 ∧
    d.availableCash = 0 ∧ d.liabilities = 0 ∧ d.lumpSums = 0 ∧
    d.totalDebtBalance = 0 ∧ d.totalDebtPayments = 0 := by
  have hno : ¬ hasAnyData p := by
    simp [hasAnyData, calculateTotals, calculateDebtTotals, h1, h2, h3, h4, h5]
  have hds := generateChartData_inv p cm mf n d hd
  subst hds
  unfold snapshotAt periodEmit
  rw [if_neg hno]
  norm_num [zeroData]

set_option maxRecDepth 8000 in
/-- Witness for C10's amended theorem: profile `c10Pw` (debt of balance 1000
with zero minimum payment, a lump sum and a goal, all recurring totals zero)
emits the all-zero row even though the debt balance is positive. -/
theorem c10_zero_profile_amended_witness :
    (c10Pw.income.sum = 0 ∧ c10Pw.expenses.sum = 0 ∧ c10Pw.savings.sum = 0 ∧
      c10Pw.investments.sum = 0 ∧ (c10Pw.debts.map (·.minimumPayment)).sum = 0) ∧
    (generateChartData c10Pw 0 0)[0]? = some (zeroData (-12)) ∧
    ((zeroData (-12)).income = 0 ∧ (zeroData (-12)).expenses = 0 ∧
      (zeroData (-12)).surplus = 0 ∧ (zeroData (-12)).netWorth = 0 ∧
      (zeroData (-12)).investments = 0 ∧ (zeroData (-12)).investmentsLow = 0 ∧
      (zeroData (-12)).investmentsHigh = 0 ∧ (zeroData (-12)).availableCash = 0 ∧
      (zeroData (-12)).liabilities = 0 ∧ (zeroData (-12)).lumpSums = 0 ∧
      (zeroData (-12)).totalDebtBalance = 0 ∧ (zeroData (-12)).totalDebtPayments = 0) := by
  have h1 : c10Pw.income.sum = 0 := by norm_num [c10Pw]
  have h2 : c10Pw.expenses.sum = 0 := by norm_num [c10Pw]
  have h3 : c10Pw.savings.sum = 0 := by norm_num [c10Pw]
  have h4 : c10Pw.investments.sum = 0 := by norm_num [c10Pw]
  have h5 : (c10Pw.debts.map (·.minimumPayment)).sum = 0 := by norm_num [c10Pw]
  have hd : (generateChartData c10Pw 0 0)[0]? = some (zeroData (-12)) := by
    rw [generateChartData_getElem? _ _ _ _ (by norm_num)]
    norm_num [snapshotAt, stateAfter, periodEmit, periodStep, hasAnyData,
      calculateTotals, calculateDebtTotals, initialState, zeroData, c10Pw]
  exact ⟨⟨h1, h2, h3, h4, h5⟩, hd,
    c10_zero_profile_amended c10Pw 0 0 0 (zeroData (-12)) h1 h2 h3 h4 h5 hd⟩

end CashflowChat
